import Mathlib

/-!
Verification development for the clixon core: a shallow embedding of the
YANG statement-tree cardinality validator (clixon_yang_cardinality.c),
the client RPC facade (clixon_proto_client.c), and the socket-family
option accessors (clixon_options.c), with theorems checking the
natural-language specification against this code.
-/

set_option maxRecDepth 4000

/-- Embedding of `enum rfc_6020`: the fixed YANG keyword vocabulary.
Only the keywords appearing in the cardinality table, plus the
unknown/extension keyword `Y_UNKNOWN`, are needed here.  The C enum draws
its values from bison token numbers, none of which is 0; the 0 value is
reserved for the sentinel entry terminating the static table, which in
this embedding is represented by the end of a `List` instead. -/
inductive rfc_6020 where
| Y_ACTION
| Y_ANYDATA
| Y_ANYXML
| Y_ARGUMENT
| Y_AUGMENT
| Y_BASE
| Y_BELONGS_TO
| Y_BIT
| Y_CASE
| Y_CHOICE
| Y_CONFIG
| Y_CONTACT
| Y_CONTAINER
| Y_DEFAULT
| Y_DESCRIPTION
| Y_DEVIATE
| Y_DEVIATION
| Y_ENUM
| Y_ERROR_APP_TAG
| Y_ERROR_MESSAGE
| Y_EXTENSION
| Y_FEATURE
| Y_FRACTION_DIGITS
| Y_GROUPING
| Y_IDENTITY
| Y_IF_FEATURE
| Y_IMPORT
| Y_INCLUDE
| Y_INPUT
| Y_KEY
| Y_LEAF
| Y_LEAF_LIST
| Y_LENGTH
| Y_LIST
| Y_MANDATORY
| Y_MAX_ELEMENTS
| Y_MIN_ELEMENTS
| Y_MODIFIER
| Y_MODULE
| Y_MUST
| Y_NAMESPACE
| Y_NOTIFICATION
| Y_ORDERED_BY
| Y_ORGANIZATION
| Y_OUTPUT
| Y_PATH
| Y_PATTERN
| Y_POSITION
| Y_PREFIX
| Y_PRESENCE
| Y_RANGE
| Y_REFERENCE
| Y_REFINE
| Y_REQUIRE_INSTANCE
| Y_REVISION
| Y_REVISION_DATE
| Y_RPC
| Y_STATUS
| Y_SUBMODULE
| Y_TYPE
| Y_TYPEDEF
| Y_UNIQUE
| Y_UNITS
| Y_USES
| Y_VALUE
| Y_WHEN
| Y_YANG_VERSION
| Y_YIN_ELEMENT
| Y_UNKNOWN
deriving DecidableEq, Fintype, Repr

open rfc_6020

/-- Embedding of `struct ycard`: one cardinality rule
(parent keyword, child keyword, min, max). -/
structure Ycard where
  yc_parent : rfc_6020
  yc_child : rfc_6020
  yc_min : Nat
  yc_max : Nat
deriving DecidableEq, Repr

/-- `NMAX`: the unbounded-cardinality sentinel (taken verbatim from the
`#define NMAX 1000000` in clixon_yang_cardinality.c). -/
def NMAX : Nat := 1000000

/-- Abbreviation used to transcribe the static table entries. -/
def yc (p c : rfc_6020) (mn mx : Nat) : Ycard := ⟨p, c, mn, mx⟩

/-- Embedding of the static table `yclist[]` of clixon_yang_cardinality.c,
transcribed entry for entry in source order.  The terminating `{0,}`
sentinel of the C array corresponds to the end of this list. -/
def yclist : List Ycard := [
  yc Y_ACTION Y_DESCRIPTION 0 1,
  yc Y_ACTION Y_GROUPING 0 1000000,
  yc Y_ACTION Y_IF_FEATURE 0 1000000,
  yc Y_ACTION Y_INPUT 0 1,
  yc Y_ACTION Y_OUTPUT 0 1,
  yc Y_ACTION Y_REFERENCE 0 1,
  yc Y_ACTION Y_STATUS 0 1,
  yc Y_ACTION Y_TYPEDEF 0 1000000,
  yc Y_ANYDATA Y_CONFIG 0 1,
  yc Y_ANYDATA Y_DESCRIPTION 0 1,
  yc Y_ANYDATA Y_IF_FEATURE 0 1000000,
  yc Y_ANYDATA Y_MANDATORY 0 1,
  yc Y_ANYDATA Y_MUST 0 1000000,
  yc Y_ANYDATA Y_REFERENCE 0 1,
  yc Y_ANYDATA Y_STATUS 0 1,
  yc Y_ANYDATA Y_WHEN 0 1,
  yc Y_ANYXML Y_CONFIG 0 1,
  yc Y_ANYXML Y_DESCRIPTION 0 1,
  yc Y_ANYXML Y_IF_FEATURE 0 1000000,
  yc Y_ANYXML Y_MANDATORY 0 1,
  yc Y_ANYXML Y_MUST 0 1000000,
  yc Y_ANYXML Y_REFERENCE 0 1,
  yc Y_ANYXML Y_STATUS 0 1,
  yc Y_ANYXML Y_WHEN 0 1,
  yc Y_ARGUMENT Y_YIN_ELEMENT 0 1,
  yc Y_AUGMENT Y_ACTION 0 1000000,
  yc Y_AUGMENT Y_ANYDATA 0 1000000,
  yc Y_AUGMENT Y_ANYXML 0 1000000,
  yc Y_AUGMENT Y_CASE 0 1000000,
  yc Y_AUGMENT Y_CHOICE 0 1000000,
  yc Y_AUGMENT Y_CONTAINER 0 1000000,
  yc Y_AUGMENT Y_DESCRIPTION 0 1,
  yc Y_AUGMENT Y_IF_FEATURE 0 1000000,
  yc Y_AUGMENT Y_LEAF 0 1000000,
  yc Y_AUGMENT Y_LEAF_LIST 0 1000000,
  yc Y_AUGMENT Y_LIST 0 1000000,
  yc Y_AUGMENT Y_NOTIFICATION 0 1000000,
  yc Y_AUGMENT Y_REFERENCE 0 1,
  yc Y_AUGMENT Y_STATUS 0 1,
  yc Y_AUGMENT Y_USES 0 1000000,
  yc Y_AUGMENT Y_WHEN 0 1,
  yc Y_BELONGS_TO Y_PREFIX 1 1,
  yc Y_BIT Y_DESCRIPTION 0 1,
  yc Y_BIT Y_IF_FEATURE 0 1000000,
  yc Y_BIT Y_POSITION 0 1,
  yc Y_BIT Y_REFERENCE 0 1,
  yc Y_BIT Y_STATUS 0 1,
  yc Y_CASE Y_ANYDATA 0 1000000,
  yc Y_CASE Y_ANYXML 0 1000000,
  yc Y_CASE Y_CHOICE 0 1000000,
  yc Y_CASE Y_CONTAINER 0 1000000,
  yc Y_CASE Y_DESCRIPTION 0 1,
  yc Y_CASE Y_IF_FEATURE 0 1000000,
  yc Y_CASE Y_LEAF 0 1000000,
  yc Y_CASE Y_LEAF_LIST 0 1000000,
  yc Y_CASE Y_LIST 0 1000000,
  yc Y_CASE Y_REFERENCE 0 1,
  yc Y_CASE Y_STATUS 0 1,
  yc Y_CASE Y_USES 0 1000000,
  yc Y_CASE Y_WHEN 0 1,
  yc Y_CHOICE Y_ANYXML 0 1000000,
  yc Y_CHOICE Y_CASE 0 1000000,
  yc Y_CHOICE Y_CHOICE 0 1000000,
  yc Y_CHOICE Y_CONFIG 0 1,
  yc Y_CHOICE Y_CONTAINER 0 1000000,
  yc Y_CHOICE Y_DEFAULT 0 1,
  yc Y_CHOICE Y_DESCRIPTION 0 1,
  yc Y_CHOICE Y_IF_FEATURE 0 1000000,
  yc Y_CHOICE Y_LEAF 0 1000000,
  yc Y_CHOICE Y_LEAF_LIST 0 1000000,
  yc Y_CHOICE Y_LIST 0 1000000,
  yc Y_CHOICE Y_MANDATORY 0 1,
  yc Y_CHOICE Y_REFERENCE 0 1,
  yc Y_CHOICE Y_STATUS 0 1,
  yc Y_CHOICE Y_WHEN 0 1,
  yc Y_CHOICE Y_ANYDATA 0 1000000,
  yc Y_CONTAINER Y_ACTION 0 1000000,
  yc Y_CONTAINER Y_ANYDATA 0 1000000,
  yc Y_CONTAINER Y_ANYXML 0 1000000,
  yc Y_CONTAINER Y_CHOICE 0 1000000,
  yc Y_CONTAINER Y_CONFIG 0 1,
  yc Y_CONTAINER Y_CONTAINER 0 1000000,
  yc Y_CONTAINER Y_DESCRIPTION 0 1,
  yc Y_CONTAINER Y_GROUPING 0 1000000,
  yc Y_CONTAINER Y_IF_FEATURE 0 1000000,
  yc Y_CONTAINER Y_LEAF 0 1000000,
  yc Y_CONTAINER Y_LEAF_LIST 0 1000000,
  yc Y_CONTAINER Y_LIST 0 1000000,
  yc Y_CONTAINER Y_MUST 0 1000000,
  yc Y_CONTAINER Y_NOTIFICATION 0 1000000,
  yc Y_CONTAINER Y_PRESENCE 0 1,
  yc Y_CONTAINER Y_REFERENCE 0 1,
  yc Y_CONTAINER Y_STATUS 0 1,
  yc Y_CONTAINER Y_TYPEDEF 0 1000000,
  yc Y_CONTAINER Y_USES 0 1000000,
  yc Y_CONTAINER Y_WHEN 0 1,
  yc Y_DEVIATE Y_CONFIG 0 1,
  yc Y_DEVIATE Y_DEFAULT 0 1000000,
  yc Y_DEVIATE Y_MANDATORY 0 1,
  yc Y_DEVIATE Y_MAX_ELEMENTS 0 1,
  yc Y_DEVIATE Y_MIN_ELEMENTS 0 1,
  yc Y_DEVIATE Y_MUST 0 1000000,
  yc Y_DEVIATE Y_TYPE 0 1,
  yc Y_DEVIATE Y_UNIQUE 0 1000000,
  yc Y_DEVIATE Y_UNITS 0 1,
  yc Y_DEVIATION Y_DESCRIPTION 0 1,
  yc Y_DEVIATION Y_DEVIATE 1 1000000,
  yc Y_DEVIATION Y_REFERENCE 0 1,
  yc Y_ENUM Y_DESCRIPTION 0 1,
  yc Y_ENUM Y_IF_FEATURE 0 1000000,
  yc Y_ENUM Y_REFERENCE 0 1,
  yc Y_ENUM Y_STATUS 0 1,
  yc Y_ENUM Y_VALUE 0 1,
  yc Y_EXTENSION Y_ARGUMENT 0 1,
  yc Y_EXTENSION Y_DESCRIPTION 0 1,
  yc Y_EXTENSION Y_REFERENCE 0 1,
  yc Y_EXTENSION Y_STATUS 0 1,
  yc Y_FEATURE Y_DESCRIPTION 0 1,
  yc Y_FEATURE Y_IF_FEATURE 0 1000000,
  yc Y_FEATURE Y_REFERENCE 0 1,
  yc Y_FEATURE Y_STATUS 0 1,
  yc Y_GROUPING Y_ACTION 0 1000000,
  yc Y_GROUPING Y_ANYDATA 0 1000000,
  yc Y_GROUPING Y_ANYXML 0 1000000,
  yc Y_GROUPING Y_CHOICE 0 1000000,
  yc Y_GROUPING Y_CONTAINER 0 1000000,
  yc Y_GROUPING Y_DESCRIPTION 0 1,
  yc Y_GROUPING Y_GROUPING 0 1000000,
  yc Y_GROUPING Y_LEAF 0 1000000,
  yc Y_GROUPING Y_LEAF_LIST 0 1000000,
  yc Y_GROUPING Y_LIST 0 1000000,
  yc Y_GROUPING Y_NOTIFICATION 0 1000000,
  yc Y_GROUPING Y_REFERENCE 0 1,
  yc Y_GROUPING Y_STATUS 0 1,
  yc Y_GROUPING Y_TYPEDEF 0 1000000,
  yc Y_GROUPING Y_USES 0 1000000,
  yc Y_IDENTITY Y_BASE 0 1000000,
  yc Y_IDENTITY Y_DESCRIPTION 0 1,
  yc Y_IDENTITY Y_IF_FEATURE 0 1000000,
  yc Y_IDENTITY Y_REFERENCE 0 1,
  yc Y_IDENTITY Y_STATUS 0 1,
  yc Y_IMPORT Y_DESCRIPTION 0 1,
  yc Y_IMPORT Y_PREFIX 1 1,
  yc Y_IMPORT Y_REFERENCE 0 1,
  yc Y_IMPORT Y_REVISION_DATE 0 1,
  yc Y_INCLUDE Y_DESCRIPTION 0 1,
  yc Y_INCLUDE Y_REFERENCE 0 1,
  yc Y_INCLUDE Y_REVISION_DATE 0 1,
  yc Y_INPUT Y_ANYDATA 0 1000000,
  yc Y_INPUT Y_ANYXML 0 1000000,
  yc Y_INPUT Y_CHOICE 0 1000000,
  yc Y_INPUT Y_CONTAINER 0 1000000,
  yc Y_INPUT Y_GROUPING 0 1000000,
  yc Y_INPUT Y_LEAF 0 1000000,
  yc Y_INPUT Y_LEAF_LIST 0 1000000,
  yc Y_INPUT Y_LIST 0 1000000,
  yc Y_INPUT Y_MUST 0 1000000,
  yc Y_INPUT Y_TYPEDEF 0 1000000,
  yc Y_INPUT Y_USES 0 1000000,
  yc Y_LEAF Y_CONFIG 0 1,
  yc Y_LEAF Y_DEFAULT 0 1,
  yc Y_LEAF Y_DESCRIPTION 0 1,
  yc Y_LEAF Y_IF_FEATURE 0 1000000,
  yc Y_LEAF Y_MANDATORY 0 1,
  yc Y_LEAF Y_MUST 0 1000000,
  yc Y_LEAF Y_REFERENCE 0 1,
  yc Y_LEAF Y_STATUS 0 1,
  yc Y_LEAF Y_TYPE 1 1,
  yc Y_LEAF Y_UNITS 0 1,
  yc Y_LEAF Y_WHEN 0 1,
  yc Y_LEAF_LIST Y_CONFIG 0 1,
  yc Y_LEAF_LIST Y_DEFAULT 0 1000000,
  yc Y_LEAF_LIST Y_DESCRIPTION 0 1,
  yc Y_LEAF_LIST Y_IF_FEATURE 0 1000000,
  yc Y_LEAF_LIST Y_MAX_ELEMENTS 0 1,
  yc Y_LEAF_LIST Y_MIN_ELEMENTS 0 1,
  yc Y_LEAF_LIST Y_MUST 0 1000000,
  yc Y_LEAF_LIST Y_ORDERED_BY 0 1,
  yc Y_LEAF_LIST Y_REFERENCE 0 1,
  yc Y_LEAF_LIST Y_STATUS 0 1,
  yc Y_LEAF_LIST Y_TYPE 1 1,
  yc Y_LEAF_LIST Y_UNITS 0 1,
  yc Y_LEAF_LIST Y_WHEN 0 1,
  yc Y_LENGTH Y_DESCRIPTION 0 1,
  yc Y_LENGTH Y_ERROR_APP_TAG 0 1,
  yc Y_LENGTH Y_ERROR_MESSAGE 0 1,
  yc Y_LENGTH Y_REFERENCE 0 1,
  yc Y_LIST Y_ACTION 0 1000000,
  yc Y_LIST Y_ANYDATA 0 1000000,
  yc Y_LIST Y_ANYXML 0 1000000,
  yc Y_LIST Y_CHOICE 0 1000000,
  yc Y_LIST Y_CONFIG 0 1,
  yc Y_LIST Y_CONTAINER 0 1000000,
  yc Y_LIST Y_DESCRIPTION 0 1,
  yc Y_LIST Y_GROUPING 0 1000000,
  yc Y_LIST Y_IF_FEATURE 0 1000000,
  yc Y_LIST Y_KEY 0 1,
  yc Y_LIST Y_LEAF 0 1000000,
  yc Y_LIST Y_LEAF_LIST 0 1000000,
  yc Y_LIST Y_LIST 0 1000000,
  yc Y_LIST Y_MAX_ELEMENTS 0 1,
  yc Y_LIST Y_MIN_ELEMENTS 0 1,
  yc Y_LIST Y_MUST 0 1000000,
  yc Y_LIST Y_NOTIFICATION 0 1000000,
  yc Y_LIST Y_ORDERED_BY 0 1,
  yc Y_LIST Y_REFERENCE 0 1,
  yc Y_LIST Y_STATUS 0 1,
  yc Y_LIST Y_TYPEDEF 0 1000000,
  yc Y_LIST Y_UNIQUE 0 1000000,
  yc Y_LIST Y_USES 0 1000000,
  yc Y_LIST Y_WHEN 0 1,
  yc Y_MODULE Y_ANYDATA 0 1000000,
  yc Y_MODULE Y_ANYXML 0 1000000,
  yc Y_MODULE Y_AUGMENT 0 1000000,
  yc Y_MODULE Y_CHOICE 0 1000000,
  yc Y_MODULE Y_CONTACT 0 1,
  yc Y_MODULE Y_CONTAINER 0 1000000,
  yc Y_MODULE Y_DESCRIPTION 0 1,
  yc Y_MODULE Y_DEVIATION 0 1000000,
  yc Y_MODULE Y_EXTENSION 0 1000000,
  yc Y_MODULE Y_FEATURE 0 1000000,
  yc Y_MODULE Y_GROUPING 0 1000000,
  yc Y_MODULE Y_IDENTITY 0 1000000,
  yc Y_MODULE Y_IMPORT 0 1000000,
  yc Y_MODULE Y_INCLUDE 0 1000000,
  yc Y_MODULE Y_LEAF 0 1000000,
  yc Y_MODULE Y_LEAF_LIST 0 1000000,
  yc Y_MODULE Y_LIST 0 1000000,
  yc Y_MODULE Y_NAMESPACE 1 1,
  yc Y_MODULE Y_NOTIFICATION 0 1000000,
  yc Y_MODULE Y_ORGANIZATION 0 1,
  yc Y_MODULE Y_PREFIX 1 1,
  yc Y_MODULE Y_REFERENCE 0 1,
  yc Y_MODULE Y_REVISION 0 1000000,
  yc Y_MODULE Y_RPC 0 1000000,
  yc Y_MODULE Y_TYPEDEF 0 1000000,
  yc Y_MODULE Y_USES 0 1000000,
  yc Y_MODULE Y_YANG_VERSION 0 1,
  yc Y_MUST Y_DESCRIPTION 0 1,
  yc Y_MUST Y_ERROR_APP_TAG 0 1,
  yc Y_MUST Y_ERROR_MESSAGE 0 1,
  yc Y_MUST Y_REFERENCE 0 1,
  yc Y_NOTIFICATION Y_ANYDATA 0 1000000,
  yc Y_NOTIFICATION Y_ANYXML 0 1000000,
  yc Y_NOTIFICATION Y_CHOICE 0 1000000,
  yc Y_NOTIFICATION Y_CONTAINER 0 1000000,
  yc Y_NOTIFICATION Y_DESCRIPTION 0 1,
  yc Y_NOTIFICATION Y_GROUPING 0 1000000,
  yc Y_NOTIFICATION Y_IF_FEATURE 0 1000000,
  yc Y_NOTIFICATION Y_LEAF 0 1000000,
  yc Y_NOTIFICATION Y_LEAF_LIST 0 1000000,
  yc Y_NOTIFICATION Y_LIST 0 1000000,
  yc Y_NOTIFICATION Y_MUST 0 1000000,
  yc Y_NOTIFICATION Y_REFERENCE 0 1,
  yc Y_NOTIFICATION Y_STATUS 0 1,
  yc Y_NOTIFICATION Y_TYPEDEF 0 1000000,
  yc Y_NOTIFICATION Y_USES 0 1000000,
  yc Y_OUTPUT Y_ANYDATA 0 1000000,
  yc Y_OUTPUT Y_ANYXML 0 1000000,
  yc Y_OUTPUT Y_CHOICE 0 1000000,
  yc Y_OUTPUT Y_CONTAINER 0 1000000,
  yc Y_OUTPUT Y_GROUPING 0 1000000,
  yc Y_OUTPUT Y_LEAF 0 1000000,
  yc Y_OUTPUT Y_LEAF_LIST 0 1000000,
  yc Y_OUTPUT Y_LIST 0 1000000,
  yc Y_OUTPUT Y_MUST 0 1000000,
  yc Y_OUTPUT Y_TYPEDEF 0 1000000,
  yc Y_OUTPUT Y_USES 0 1000000,
  yc Y_PATTERN Y_DESCRIPTION 0 1,
  yc Y_PATTERN Y_ERROR_APP_TAG 0 1,
  yc Y_PATTERN Y_ERROR_MESSAGE 0 1,
  yc Y_PATTERN Y_MODIFIER 0 1,
  yc Y_PATTERN Y_REFERENCE 0 1,
  yc Y_RANGE Y_DESCRIPTION 0 1,
  yc Y_RANGE Y_ERROR_APP_TAG 0 1,
  yc Y_RANGE Y_ERROR_MESSAGE 0 1,
  yc Y_RANGE Y_REFERENCE 0 1,
  yc Y_REVISION Y_DESCRIPTION 0 1,
  yc Y_REVISION Y_REFERENCE 0 1,
  yc Y_RPC Y_DESCRIPTION 0 1,
  yc Y_RPC Y_GROUPING 0 1000000,
  yc Y_RPC Y_IF_FEATURE 0 1000000,
  yc Y_RPC Y_INPUT 0 1,
  yc Y_RPC Y_OUTPUT 0 1,
  yc Y_RPC Y_REFERENCE 0 1,
  yc Y_RPC Y_STATUS 0 1,
  yc Y_RPC Y_TYPEDEF 0 1000000,
  yc Y_SUBMODULE Y_ANYDATA 0 1000000,
  yc Y_SUBMODULE Y_AUGMENT 0 1000000,
  yc Y_SUBMODULE Y_BELONGS_TO 1 1,
  yc Y_SUBMODULE Y_CHOICE 0 1000000,
  yc Y_SUBMODULE Y_CONTACT 0 1,
  yc Y_SUBMODULE Y_CONTAINER 0 1000000,
  yc Y_SUBMODULE Y_DESCRIPTION 0 1,
  yc Y_SUBMODULE Y_DEVIATION 0 1000000,
  yc Y_SUBMODULE Y_EXTENSION 0 1000000,
  yc Y_SUBMODULE Y_FEATURE 0 1000000,
  yc Y_SUBMODULE Y_GROUPING 0 1000000,
  yc Y_SUBMODULE Y_IDENTITY 0 1000000,
  yc Y_SUBMODULE Y_IMPORT 0 1000000,
  yc Y_SUBMODULE Y_INCLUDE 0 1000000,
  yc Y_SUBMODULE Y_LEAF 0 1000000,
  yc Y_SUBMODULE Y_LEAF_LIST 0 1000000,
  yc Y_SUBMODULE Y_LIST 0 1000000,
  yc Y_SUBMODULE Y_NOTIFICATION 0 1000000,
  yc Y_SUBMODULE Y_ORGANIZATION 0 1,
  yc Y_SUBMODULE Y_REFERENCE 0 1,
  yc Y_SUBMODULE Y_REVISION 0 1000000,
  yc Y_SUBMODULE Y_RPC 0 1000000,
  yc Y_SUBMODULE Y_TYPEDEF 0 1000000,
  yc Y_SUBMODULE Y_USES 0 1000000,
  yc Y_SUBMODULE Y_YANG_VERSION 0 1,
  yc Y_TYPE Y_BASE 0 1000000,
  yc Y_TYPE Y_BIT 0 1000000,
  yc Y_TYPE Y_ENUM 0 1000000,
  yc Y_TYPE Y_FRACTION_DIGITS 0 1,
  yc Y_TYPE Y_LENGTH 0 1,
  yc Y_TYPE Y_PATH 0 1,
  yc Y_TYPE Y_PATTERN 0 1000000,
  yc Y_TYPE Y_RANGE 0 1,
  yc Y_TYPE Y_REQUIRE_INSTANCE 0 1,
  yc Y_TYPE Y_TYPE 0 1000000,
  yc Y_TYPEDEF Y_DEFAULT 0 1,
  yc Y_TYPEDEF Y_DESCRIPTION 0 1,
  yc Y_TYPEDEF Y_REFERENCE 0 1,
  yc Y_TYPEDEF Y_STATUS 0 1,
  yc Y_TYPEDEF Y_TYPE 1 1,
  yc Y_TYPEDEF Y_UNITS 0 1,
  yc Y_USES Y_AUGMENT 0 1000000,
  yc Y_USES Y_DESCRIPTION 0 1,
  yc Y_USES Y_IF_FEATURE 0 1000000,
  yc Y_USES Y_REFERENCE 0 1,
  yc Y_USES Y_REFINE 0 1000000,
  yc Y_USES Y_STATUS 0 1,
  yc Y_USES Y_WHEN 0 1
]

/-- Embedding of `ycard_find`: scan the table for the parent (and child,
when given: the C call passes child 0 for "first entry of this parent",
modelled as `none`).  The C function returns a pointer into the array;
this embedding returns the corresponding suffix of the list, whose head
is the found entry.  With `p = true` the scan quits as soon as a parent
does not match (premature quit). -/
def ycard_find (parent : rfc_6020) (child : Option rfc_6020) :
    List Ycard → Bool → Option (List Ycard)
  | [], _ => none
  | ycl@(ycHead :: rest), p =>
    if ycHead.yc_parent = parent then
      if child = none ∨ child = some ycHead.yc_child then some ycl
      else ycard_find parent child rest p
    else
      if p then none
      else ycard_find parent child rest p

example : (ycard_find Y_MODULE none yclist false).isSome = true := by decide
example : ycard_find Y_NAMESPACE none yclist false = none := by decide
example : ycard_find Y_MODULE none yclist false = some (yclist.drop 211) := by decide

/-- Embedding of the statement node (`yang_stmt`, clixon_yang_internal.h):
keyword, argument string and the ordered list of children.  Only the
fields read by `yang_cardinality` are modelled; parent back-references,
flags and type caches are not consulted by it. -/
inductive YangStmt where
  | mk (keyword : rfc_6020) (argument : String) (children : List YangStmt)

/-- `yang_keyword_get`. -/
def YangStmt.keyword : YangStmt → rfc_6020
  | .mk kw _ _ => kw

/-- `yang_argument_get`. -/
def YangStmt.argument : YangStmt → String
  | .mk _ arg _ => arg

/-- Children accessor (`yn_each` iteration order / `yang_child_i` indexing). -/
def YangStmt.children : YangStmt → List YangStmt
  | .mk _ _ ch => ch

/-- Modelled from the spec: `yang_find(yt, keyword, NULL)` — clixon_yang.c is
not part of this source tree; section 4.1 of the spec specifies depth-one
search for the first child matching a keyword (argument NULL means match on
keyword only).  Returns the first child with the given keyword. -/
def yang_find (children : List YangStmt) (kw : rfc_6020) : Option YangStmt :=
  children.find? (fun c => c.keyword = kw)

/-- Modelled from the spec: `yang_match(yt, keyword, NULL)` — counts the
children with the given keyword (spec section 4.1: iteration over children
filtered by keyword). -/
def yang_match (children : List YangStmt) (kw : rfc_6020) : Nat :=
  children.countP (fun c => c.keyword = kw)

/-- The errors raised by `yang_cardinality` through `clicon_err`.  Each
constructor's fields are, in order, exactly the format arguments of the
corresponding `clicon_err` call in the C source. -/
inductive CardErr where
  /-- "%s: \x22%s\x22(%s) is child of \x22%s\x22(%s), but should not be" -/
  | notAChild (modname : String) (childKw : rfc_6020) (childArg : String)
      (parentKw : rfc_6020) (parentArg : String)
  /-- "%s: \x22%s\x22 is missing but is mandatory child of \x22%s\x22" -/
  | missingMandatory (modname : String) (childKw : rfc_6020) (parentKw : rfc_6020)
  /-- "%s: \x22%s\x22 has %d children of type \x22%s\x22, but only %d allowed" -/
  | tooMany (modname : String) (parentKw : rfc_6020) (nr : Nat)
      (childKw : rfc_6020) (max : Nat)
deriving DecidableEq, Repr

/-- Check 1 of `yang_cardinality`: for each child in order (skipping
`Y_UNKNOWN`), look up the (parent, child) pair in the parent's run with the
premature-quit flag set; first failure produces the "should not be" error. -/
def check1 (modname : String) (pk : rfc_6020) (parentArg : String)
    (run : List Ycard) : List YangStmt → Option CardErr
  | [] => none
  | ys :: rest =>
    if ys.keyword = Y_UNKNOWN then check1 modname pk parentArg run rest
    else
      match ycard_find pk (some ys.keyword) run true with
      | some _ => check1 modname pk parentArg run rest
      | none => some (.notAChild modname ys.keyword ys.argument pk parentArg)

/-- Check 2 of `yang_cardinality`: scan the parent's run while the parent
keyword matches; the first rule with nonzero min and no matching child
produces the "missing but is mandatory" error. -/
def check2 (modname : String) (pk : rfc_6020) (children : List YangStmt) :
    List Ycard → Option CardErr
  | [] => none
  | ycEntry :: rest =>
    if ycEntry.yc_parent = pk then
      if ycEntry.yc_min ≠ 0 ∧ (yang_find children ycEntry.yc_child).isNone then
        some (.missingMandatory modname ycEntry.yc_child pk)
      else check2 modname pk children rest
    else none

/-- Check 3 of `yang_cardinality`: scan the parent's run while the parent
keyword matches; the first rule with bounded max exceeded by the child
count produces the "only %d allowed" error. -/
def check3 (modname : String) (pk : rfc_6020) (children : List YangStmt) :
    List Ycard → Option CardErr
  | [] => none
  | ycEntry :: rest =>
    if ycEntry.yc_parent = pk then
      if ycEntry.yc_max < NMAX ∧ yang_match children ycEntry.yc_child > ycEntry.yc_max then
        some (.tooMany modname pk (yang_match children ycEntry.yc_child)
          ycEntry.yc_child ycEntry.yc_max)
      else check3 modname pk children rest
    else none

mutual
/-- Embedding of `yang_cardinality` (clixon_yang_cardinality.c): find the
parent's sub-part of the cardinality table (absent: `goto ok`, which skips
the checks and the recursion); then run checks 1, 2, 3, the first error
aborting with `goto done` (retval -1, modelled as `.error`); then recurse
into the children in order, aborting at the first failing child. -/
def yang_cardinality (modname : String) (yt : YangStmt) : Except CardErr Unit :=
  match yt with
  | .mk pk arg ch =>
    match ycard_find pk none yclist false with
    | none => .ok ()
    | some run =>
      match check1 modname pk arg run ch with
      | some e => .error e
      | none =>
        match check2 modname pk ch run with
        | some e => .error e
        | none =>
          match check3 modname pk ch run with
          | some e => .error e
          | none => yang_cardinality_children modname ch

/-- The recursion loop of `yang_cardinality` step 4 over the children. -/
def yang_cardinality_children (modname : String) : List YangStmt → Except CardErr Unit
  | [] => .ok ()
  | c :: cs =>
    match yang_cardinality modname c with
    | .error e => .error e
    | .ok _ => yang_cardinality_children modname cs
end

mutual
/-- The nodes on which `yang_cardinality` is invoked, in invocation order,
mirroring its control flow: the node itself, then—only if the parent has a
table run and all three checks pass—the recursive calls into the children,
cut off after the first child whose subtree fails. -/
def cardinality_calls (modname : String) (yt : YangStmt) : List YangStmt :=
  yt ::
    (match yt with
     | .mk pk arg ch =>
       match ycard_find pk none yclist false with
       | none => []
       | some run =>
         match check1 modname pk arg run ch with
         | some _ => []
         | none =>
           match check2 modname pk ch run with
           | some _ => []
           | none =>
             match check3 modname pk ch run with
             | some _ => []
             | none => cardinality_calls_children modname ch)

/-- Invocation trace of the recursion loop over the children. -/
def cardinality_calls_children (modname : String) : List YangStmt → List YangStmt
  | [] => []
  | c :: cs =>
    cardinality_calls modname c ++
      (match yang_cardinality modname c with
       | .error _ => []
       | .ok _ => cardinality_calls_children modname cs)
end

mutual
/-- Pre-order (depth-first, node before children) listing of a statement
tree. -/
def preorder_nodes (yt : YangStmt) : List YangStmt :=
  match yt with
  | .mk _ _ ch => yt :: preorder_forest ch

/-- Pre-order listing of a list of trees. -/
def preorder_forest : List YangStmt → List YangStmt
  | [] => []
  | c :: cs => preorder_nodes c ++ preorder_forest cs
end

/-- A (parent, child) pair has a rule somewhere in the whole table. -/
def ruleExists (p c : rfc_6020) : Bool :=
  yclist.any (fun y => y.yc_parent = p ∧ y.yc_child = c)

/-- Bool-valued parent test used for scanning the table. -/
def isParent (k : rfc_6020) (y : Ycard) : Bool := y.yc_parent = k

/-- The static table is grouped by parent keyword: for every keyword, the
run found by dropping entries of other parents and stopping when the
parent changes is exactly the set of entries for that parent. -/
theorem table_grouped : ∀ k : rfc_6020,
    (yclist.dropWhile (fun y => ! isParent k y)).takeWhile (isParent k) =
      yclist.filter (isParent k) := by decide

/-- `ycard_find` with child 0 returns the suffix starting at the first
entry whose parent matches. -/
theorem ycard_find_none_eq (k : rfc_6020) :
    ∀ l : List Ycard, ycard_find k none l false =
      (if l.dropWhile (fun y => ! isParent k y) = [] then none
       else some (l.dropWhile (fun y => ! isParent k y))) := by
  intro l
  induction l with
  | nil => simp [ycard_find]
  | cons y rest ih =>
    by_cases hp : y.yc_parent = k
    · simp [ycard_find, hp, isParent, List.dropWhile]
    · simp [ycard_find, hp, isParent, List.dropWhile, ih]

/-- `ycard_find` with a child keyword and the premature-quit flag scans
exactly the leading run of matching parents for the child. -/
theorem ycard_find_some_child (k c : rfc_6020) :
    ∀ run : List Ycard, (ycard_find k (some c) run true).isSome =
      (run.takeWhile (isParent k)).any (fun y => y.yc_child = c) := by
  intro run
  induction run with
  | nil => simp [ycard_find]
  | cons y rest ih =>
    by_cases hp : y.yc_parent = k
    · by_cases hc : c = y.yc_child
      · simp [ycard_find, hp, hc, isParent, List.takeWhile]
      · have hc' : ¬ (y.yc_child = c) := fun h => hc h.symm
        simp [ycard_find, hp, hc, hc', isParent, List.takeWhile, ih]
    · simp [ycard_find, hp, isParent, List.takeWhile]

/-- When `ycard_find` locates a parent's run, the leading matching-parent
segment of the run is exactly the table's rules for that parent. -/
theorem run_rules {k : rfc_6020} {run : List Ycard}
    (h : ycard_find k none yclist false = some run) :
    run.takeWhile (isParent k) = yclist.filter (isParent k) := by
  rw [ycard_find_none_eq] at h
  split at h
  · exact absurd h (by simp)
  · cases h
    exact table_grouped k

/-- When `ycard_find` finds no run for a parent, the table has no rules
for that parent at all. -/
theorem absent_rules {k : rfc_6020}
    (h : ycard_find k none yclist false = none) :
    yclist.filter (isParent k) = [] := by
  rw [ycard_find_none_eq] at h
  split at h
  · rw [← table_grouped k]
    next hdrop => rw [hdrop]; rfl
  · exact absurd h (by simp)

/-- Membership in the leading matching segment of a located run is the
same as being a table rule for that parent. -/
theorem mem_run_iff {k : rfc_6020} {run : List Ycard}
    (h : ycard_find k none yclist false = some run) (y : Ycard) :
    y ∈ run.takeWhile (isParent k) ↔ y ∈ yclist ∧ y.yc_parent = k := by
  rw [run_rules h, List.mem_filter]
  simp [isParent]

/-- The check-1 lookup over a located run succeeds exactly when the whole
table has a rule for the (parent, child) pair. -/
theorem child_found_iff {k : rfc_6020} {run : List Ycard}
    (h : ycard_find k none yclist false = some run) (c : rfc_6020) :
    (ycard_find k (some c) run true).isSome = true ↔ ruleExists k c = true := by
  rw [ycard_find_some_child, List.any_eq_true]
  unfold ruleExists
  rw [List.any_eq_true]
  constructor
  · rintro ⟨y, hy, hchild⟩
    rw [mem_run_iff h] at hy
    exact ⟨y, hy.1, by simp_all⟩
  · rintro ⟨y, hy, hpc⟩
    simp only [decide_eq_true_eq] at hpc
    refine ⟨y, (mem_run_iff h y).2 ⟨hy, hpc.1⟩, by simp [hpc.2]⟩

/-- Check 1 passes exactly when every child is unknown or has a table
rule under this parent. -/
theorem check1_none_iff {k : rfc_6020} {run : List Ycard}
    (h : ycard_find k none yclist false = some run)
    (modname parentArg : String) :
    ∀ ch : List YangStmt, check1 modname k parentArg run ch = none ↔
      ∀ c ∈ ch, c.keyword = Y_UNKNOWN ∨ ruleExists k c.keyword = true := by
  intro ch
  induction ch with
  | nil => simp [check1]
  | cons c rest ih =>
    by_cases hu : c.keyword = Y_UNKNOWN
    · simp [check1, hu, ih]
    · rcases hfind : ycard_find k (some c.keyword) run true with _ | found
      · have : ¬ ruleExists k c.keyword = true := by
          rw [← child_found_iff h c.keyword, hfind]; simp
        simp [check1, hu, hfind, this]
      · have : ruleExists k c.keyword = true := by
          rw [← child_found_iff h c.keyword, hfind]; rfl
        simp [check1, hu, hfind, ih, this]

/-- The error produced by check 1 comes from a child with no table rule
and carries exactly the child keyword, child argument, parent keyword and
parent argument. -/
theorem check1_some {k : rfc_6020} {run : List Ycard}
    (h : ycard_find k none yclist false = some run)
    (modname parentArg : String) :
    ∀ ch : List YangStmt, ∀ e, check1 modname k parentArg run ch = some e →
      ∃ c ∈ ch, ¬ c.keyword = Y_UNKNOWN ∧ ruleExists k c.keyword = false ∧
        e = .notAChild modname c.keyword c.argument k parentArg := by
  intro ch
  induction ch with
  | nil => simp [check1]
  | cons c rest ih =>
    intro e he
    by_cases hu : c.keyword = Y_UNKNOWN
    · rw [check1, if_pos hu] at he
      obtain ⟨c', hc', prop⟩ := ih e he
      exact ⟨c', List.mem_cons_of_mem _ hc', prop⟩
    · rw [check1, if_neg hu] at he
      rcases hfind : ycard_find k (some c.keyword) run true with _ | found
      · rw [hfind] at he
        refine ⟨c, List.mem_cons_self .., hu, ?_, by injection he with h'; exact h'.symm⟩
        rw [← Bool.not_eq_true, ← child_found_iff h c.keyword, hfind]
        simp
      · rw [hfind] at he
        obtain ⟨c', hc', prop⟩ := ih e he
        exact ⟨c', List.mem_cons_of_mem _ hc', prop⟩

/-- Check 2 passes exactly when every mandatory (min ≥ 1) rule of the
scanned run has at least one matching child. -/
theorem check2_none_iff (modname : String) (k : rfc_6020) (ch : List YangStmt) :
    ∀ run : List Ycard, check2 modname k ch run = none ↔
      ∀ y ∈ run.takeWhile (isParent k), y.yc_min ≠ 0 →
        (yang_find ch y.yc_child).isSome := by
  intro run
  induction run with
  | nil => simp [check2]
  | cons y rest ih =>
    by_cases hp : y.yc_parent = k
    · by_cases hviol : y.yc_min ≠ 0 ∧ (yang_find ch y.yc_child).isNone
      · simp only [check2, if_pos hp, if_pos hviol, List.takeWhile]
        have : isParent k y = true := by simp [isParent, hp]
        simp only [this, Option.isNone_iff_eq_none] at *
        simp only [reduceCtorEq, false_iff, not_forall]
        exact ⟨y, by simp, hviol.1, by simp [hviol.2]⟩
      · simp only [check2, if_pos hp, if_neg hviol, List.takeWhile]
        have hy : isParent k y = true := by simp [isParent, hp]
        simp only [hy]
        rw [ih]
        constructor
        · intro hall z hz hmin
          rcases List.mem_cons.1 hz with rfl | hz'
          · rcases Decidable.not_and_iff_or_not.1 hviol with h1 | h2
            · exact absurd hmin h1
            · simpa [Option.isNone_iff_eq_none, ← Option.ne_none_iff_isSome] using h2
          · exact hall z hz' hmin
        · intro hall z hz hmin
          exact hall z (List.mem_cons_of_mem _ hz) hmin
    · simp only [check2, if_neg hp, List.takeWhile]
      have : isParent k y = false := by simp [isParent, hp]
      simp [this]

/-- The error produced by check 2 comes from a mandatory rule of the run
with no matching child and carries exactly the module name, the missing
child keyword and the parent keyword. -/
theorem check2_some (modname : String) (k : rfc_6020) (ch : List YangStmt) :
    ∀ run : List Ycard, ∀ e, check2 modname k ch run = some e →
      ∃ y ∈ run.takeWhile (isParent k), y.yc_min ≠ 0 ∧
        yang_find ch y.yc_child = none ∧
        e = .missingMandatory modname y.yc_child k := by
  intro run
  induction run with
  | nil => simp [check2]
  | cons y rest ih =>
    intro e he
    by_cases hp : y.yc_parent = k
    · have hy : isParent k y = true := by simp [isParent, hp]
      by_cases hviol : y.yc_min ≠ 0 ∧ (yang_find ch y.yc_child).isNone
      · rw [check2, if_pos hp, if_pos hviol] at he
        refine ⟨y, ?_, hviol.1, by simpa [Option.isNone_iff_eq_none] using hviol.2,
          by injection he with h'; exact h'.symm⟩
        simp [List.takeWhile, hy]
      · rw [check2, if_pos hp, if_neg hviol] at he
        obtain ⟨z, hz, prop⟩ := ih e he
        refine ⟨z, ?_, prop⟩
        simp only [List.takeWhile, hy]
        exact List.mem_cons_of_mem _ hz
    · rw [check2, if_neg hp] at he
      exact absurd he (by simp)

/-- Check 3 passes exactly when no bounded-max rule of the scanned run is
exceeded by the matching-child count. -/
theorem check3_none_iff (modname : String) (k : rfc_6020) (ch : List YangStmt) :
    ∀ run : List Ycard, check3 modname k ch run = none ↔
      ∀ y ∈ run.takeWhile (isParent k), y.yc_max < NMAX →
        yang_match ch y.yc_child ≤ y.yc_max := by
  intro run
  induction run with
  | nil => simp [check3]
  | cons y rest ih =>
    by_cases hp : y.yc_parent = k
    · have hy : isParent k y = true := by simp [isParent, hp]
      by_cases hviol : y.yc_max < NMAX ∧ yang_match ch y.yc_child > y.yc_max
      · simp only [check3, if_pos hp, if_pos hviol, List.takeWhile, hy]
        simp only [reduceCtorEq, false_iff, not_forall]
        exact ⟨y, by simp, hviol.1, by omega⟩
      · simp only [check3, if_pos hp, if_neg hviol, List.takeWhile, hy]
        rw [ih]
        constructor
        · intro hall z hz hmax
          rcases List.mem_cons.1 hz with rfl | hz'
          · rcases Decidable.not_and_iff_or_not.1 hviol with h1 | h2
            · exact absurd hmax h1
            · omega
          · exact hall z hz' hmax
        · intro hall z hz hmax
          exact hall z (List.mem_cons_of_mem _ hz) hmax
    · have : isParent k y = false := by simp [isParent, hp]
      simp [check3, hp, List.takeWhile, this]

/-- The error produced by check 3 comes from a bounded rule of the run
whose count is exceeded and carries exactly the module name, parent
keyword, counted number, child keyword and allowed maximum. -/
theorem check3_some (modname : String) (k : rfc_6020) (ch : List YangStmt) :
    ∀ run : List Ycard, ∀ e, check3 modname k ch run = some e →
      ∃ y ∈ run.takeWhile (isParent k), y.yc_max < NMAX ∧
        yang_match ch y.yc_child > y.yc_max ∧
        e = .tooMany modname k (yang_match ch y.yc_child) y.yc_child y.yc_max := by
  intro run
  induction run with
  | nil => simp [check3]
  | cons y rest ih =>
    intro e he
    by_cases hp : y.yc_parent = k
    · have hy : isParent k y = true := by simp [isParent, hp]
      by_cases hviol : y.yc_max < NMAX ∧ yang_match ch y.yc_child > y.yc_max
      · rw [check3, if_pos hp, if_pos hviol] at he
        refine ⟨y, by simp [List.takeWhile, hy], hviol.1, hviol.2,
          by injection he with h'; exact h'.symm⟩
      · rw [check3, if_pos hp, if_neg hviol] at he
        obtain ⟨z, hz, prop⟩ := ih e he
        refine ⟨z, ?_, prop⟩
        simp only [List.takeWhile, hy]
        exact List.mem_cons_of_mem _ hz
    · rw [check3, if_neg hp] at he
      exact absurd he (by simp)

/-- A check-1 failure is the validator's result. -/
theorem yang_cardinality_error1 {modname arg : String} {pk : rfc_6020}
    {ch : List YangStmt} {run : List Ycard} {e : CardErr}
    (hrun : ycard_find pk none yclist false = some run)
    (h1 : check1 modname pk arg run ch = some e) :
    yang_cardinality modname (.mk pk arg ch) = .error e := by
  simp [yang_cardinality, hrun, h1]

/-- With check 1 passing, a check-2 failure is the validator's result. -/
theorem yang_cardinality_error2 {modname arg : String} {pk : rfc_6020}
    {ch : List YangStmt} {run : List Ycard} {e : CardErr}
    (hrun : ycard_find pk none yclist false = some run)
    (h1 : check1 modname pk arg run ch = none)
    (h2 : check2 modname pk ch run = some e) :
    yang_cardinality modname (.mk pk arg ch) = .error e := by
  simp [yang_cardinality, hrun, h1, h2]

/-- With checks 1 and 2 passing, a check-3 failure is the validator's
result. -/
theorem yang_cardinality_error3 {modname arg : String} {pk : rfc_6020}
    {ch : List YangStmt} {run : List Ycard} {e : CardErr}
    (hrun : ycard_find pk none yclist false = some run)
    (h1 : check1 modname pk arg run ch = none)
    (h2 : check2 modname pk ch run = none)
    (h3 : check3 modname pk ch run = some e) :
    yang_cardinality modname (.mk pk arg ch) = .error e := by
  simp [yang_cardinality, hrun, h1, h2, h3]

/-- C1: counterexample.  The claim quantifies over every node, but a node
whose keyword has no entries at all in the table (here a `namespace` node
given a `description` child) is accepted by `yang_cardinality` even though
the pair has no rule in the table and the child keyword is not the
unknown/extension keyword — validation skips such parents entirely
instead of rejecting their children. -/
theorem C1_counterexample :
    yang_cardinality "m" (.mk Y_NAMESPACE "urn:x" [.mk Y_DESCRIPTION "d" []]) = .ok () ∧
    ruleExists Y_NAMESPACE Y_DESCRIPTION = false ∧
    Y_DESCRIPTION ≠ Y_UNKNOWN := by
  exact ⟨rfl, by decide, by decide⟩

/-- C1 (amended): for every node whose keyword has at least one entry in
the cardinality table, the child check accepts each direct child exactly
when a rule for the (parent, child) pair appears in the table or the
child keyword is the unknown/extension keyword; the first offending child
makes `yang_cardinality` fail with the "should not be a child" error
naming the child keyword and argument and the parent keyword and
argument. -/
theorem C1_child_acceptance :
    ∀ (modname parentArg : String) (pk : rfc_6020) (ch : List YangStmt)
      (run : List Ycard),
      ycard_find pk none yclist false = some run →
      ((check1 modname pk parentArg run ch = none ↔
          ∀ c ∈ ch, c.keyword = Y_UNKNOWN ∨ ruleExists pk c.keyword = true) ∧
       (∀ e, check1 modname pk parentArg run ch = some e →
          yang_cardinality modname (.mk pk parentArg ch) = .error e ∧
          ∃ c ∈ ch, ¬ c.keyword = Y_UNKNOWN ∧ ruleExists pk c.keyword = false ∧
            e = .notAChild modname c.keyword c.argument pk parentArg)) := by
  intro modname parentArg pk ch run hrun
  refine ⟨check1_none_iff hrun modname parentArg ch, fun e he => ?_⟩
  exact ⟨yang_cardinality_error1 hrun he, check1_some hrun modname parentArg ch e he⟩

/-- C1: witness at a concrete input (a `module` node with a `container`
child, whose run starts at index 211 of the table). -/
theorem C1_witness :
    (check1 "m" Y_MODULE "mymod" (yclist.drop 211) [.mk Y_CONTAINER "c" []] = none ↔
      ∀ c ∈ [YangStmt.mk Y_CONTAINER "c" []],
        c.keyword = Y_UNKNOWN ∨ ruleExists Y_MODULE c.keyword = true) :=
  (C1_child_acceptance "m" "mymod" Y_MODULE [.mk Y_CONTAINER "c" []]
    (yclist.drop 211) (by decide)).1

/-- C2: counterexample.  The missing-mandatory error does not name the
parent node's argument: two `belongs-to` nodes with different arguments
produce the identical error value (module name, missing child keyword,
parent keyword only), so the claim that the error names the parent's
argument fails. -/
theorem C2_counterexample :
    yang_cardinality "m" (.mk Y_BELONGS_TO "argA" []) =
      .error (.missingMandatory "m" Y_PREFIX Y_BELONGS_TO) ∧
    yang_cardinality "m" (.mk Y_BELONGS_TO "argB" []) =
      .error (.missingMandatory "m" Y_PREFIX Y_BELONGS_TO) :=
  ⟨rfl, rfl⟩

/-- C2 (amended): for every parent whose keyword has a table rule with
min ≥ 1, and with the child-type check passing, `yang_cardinality` raises
the "missing mandatory child" error exactly when the parent has zero
children of the rule's child keyword, and the error names the module
name, the expected child keyword and the parent keyword (not the parent's
argument). -/
theorem C2_missing_mandatory :
    ∀ (modname arg : String) (pk : rfc_6020) (ch : List YangStmt)
      (run : List Ycard),
      ycard_find pk none yclist false = some run →
      check1 modname pk arg run ch = none →
      ((check2 modname pk ch run = none ↔
          ∀ y ∈ yclist, y.yc_parent = pk → y.yc_min ≥ 1 →
            (yang_find ch y.yc_child).isSome) ∧
       (∀ e, check2 modname pk ch run = some e →
          yang_cardinality modname (.mk pk arg ch) = .error e ∧
          ∃ y ∈ yclist, y.yc_parent = pk ∧ y.yc_min ≥ 1 ∧
            yang_find ch y.yc_child = none ∧
            e = .missingMandatory modname y.yc_child pk)) := by
  intro modname arg pk ch run hrun h1
  constructor
  · rw [check2_none_iff]
    constructor
    · intro hall y hy hpk hmin
      exact hall y ((mem_run_iff hrun y).2 ⟨hy, hpk⟩) (by omega)
    · intro hall y hy hmin
      obtain ⟨hy', hpk⟩ := (mem_run_iff hrun y).1 hy
      exact hall y hy' hpk (by omega)
  · intro e he
    refine ⟨yang_cardinality_error2 hrun h1 he, ?_⟩
    obtain ⟨y, hy, hmin, hfind, hval⟩ := check2_some modname pk ch run e he
    obtain ⟨hy', hpk⟩ := (mem_run_iff hrun y).1 hy
    exact ⟨y, hy', hpk, by omega, hfind, hval⟩

/-- C2: witness.  A `module` node carrying only a `prefix` child (no
`namespace`) fails with the missing-mandatory error naming `namespace`
and `module`, exactly the spec scenario. -/
theorem C2_witness :
    yang_cardinality "mymod" (.mk Y_MODULE "mymod" [.mk Y_PREFIX "x" []]) =
      .error (.missingMandatory "mymod" Y_NAMESPACE Y_MODULE) :=
  ((C2_missing_mandatory "mymod" "mymod" Y_MODULE [.mk Y_PREFIX "x" []]
    (yclist.drop 211) (by decide) (by decide)).2
    (.missingMandatory "mymod" Y_NAMESPACE Y_MODULE) (by decide)).1

/-- C3: for every parent whose keyword has a table rule with a bounded
max (below the `NMAX` sentinel), and with the earlier checks passing, the
counting check accepts exactly when each bounded rule's matching-child
count is at most its max (so exactly `max` children are accepted), and an
exceeded rule makes `yang_cardinality` fail with the "only %d allowed"
error reporting both the counted number and the allowed maximum. -/
theorem C3_max_cardinality :
    ∀ (modname arg : String) (pk : rfc_6020) (ch : List YangStmt)
      (run : List Ycard),
      ycard_find pk none yclist false = some run →
      check1 modname pk arg run ch = none →
      check2 modname pk ch run = none →
      ((check3 modname pk ch run = none ↔
          ∀ y ∈ yclist, y.yc_parent = pk → y.yc_max < NMAX →
            yang_match ch y.yc_child ≤ y.yc_max) ∧
       (∀ e, check3 modname pk ch run = some e →
          yang_cardinality modname (.mk pk arg ch) = .error e ∧
          ∃ y ∈ yclist, y.yc_parent = pk ∧ y.yc_max < NMAX ∧
            yang_match ch y.yc_child > y.yc_max ∧
            e = .tooMany modname pk (yang_match ch y.yc_child) y.yc_child y.yc_max)) := by
  intro modname arg pk ch run hrun h1 h2
  constructor
  · rw [check3_none_iff]
    constructor
    · intro hall y hy hpk hmax
      exact hall y ((mem_run_iff hrun y).2 ⟨hy, hpk⟩) hmax
    · intro hall y hy hmax
      obtain ⟨hy', hpk⟩ := (mem_run_iff hrun y).1 hy
      exact hall y hy' hpk hmax
  · intro e he
    refine ⟨yang_cardinality_error3 hrun h1 h2 he, ?_⟩
    obtain ⟨y, hy, hmax, hcount, hval⟩ := check3_some modname pk ch run e he
    obtain ⟨hy', hpk⟩ := (mem_run_iff hrun y).1 hy
    exact ⟨y, hy', hpk, hmax, hcount, hval⟩

/-- C3: witness.  A `leaf` node with two `type` children (the rule allows
at most one) fails with the error counting 2 against the allowed 1. -/
theorem C3_witness :
    yang_cardinality "m" (.mk Y_LEAF "l" [.mk Y_TYPE "string" [], .mk Y_TYPE "uint8" []]) =
      .error (.tooMany "m" Y_LEAF 2 Y_TYPE 1) :=
  ((C3_max_cardinality "m" "l" Y_LEAF [.mk Y_TYPE "string" [], .mk Y_TYPE "uint8" []]
    (yclist.drop 159) (by decide) (by decide) (by decide)).2
    (.tooMany "m" Y_LEAF 2 Y_TYPE 1) (by decide)).1

/-- Size-bounded simultaneous induction: when every node of the tree has
a table run and validation succeeds, the invocation trace is exactly the
pre-order listing. -/
theorem calls_eq_preorder_aux (modname : String) :
    ∀ N : Nat,
      (∀ yt : YangStmt, sizeOf yt ≤ N →
        (∀ n ∈ preorder_nodes yt, (ycard_find n.keyword none yclist false).isSome) →
        yang_cardinality modname yt = .ok () →
        cardinality_calls modname yt = preorder_nodes yt) ∧
      (∀ ls : List YangStmt, sizeOf ls ≤ N →
        (∀ n ∈ preorder_forest ls, (ycard_find n.keyword none yclist false).isSome) →
        yang_cardinality_children modname ls = .ok () →
        cardinality_calls_children modname ls = preorder_forest ls) := by
  intro N
  induction N with
  | zero =>
    constructor
    · intro yt hsz
      cases yt with
      | mk pk arg ch => simp at hsz
    · intro ls hsz
      cases ls with
      | nil => intro _ _; rfl
      | cons c cs =>
        cases c with
        | mk pk arg ch => simp at hsz
  | succ N ih =>
    constructor
    · intro yt hsz hall hok
      cases yt with
      | mk pk arg ch =>
        have hch : sizeOf ch ≤ N := by simp at hsz; omega
        have hhead : (ycard_find pk none yclist false).isSome := by
          have := hall (.mk pk arg ch) (by rw [preorder_nodes]; exact List.mem_cons_self ..)
          simpa [YangStmt.keyword] using this
        obtain ⟨run, hrun⟩ := Option.isSome_iff_exists.1 hhead
        rcases h1 : check1 modname pk arg run ch with _ | e1
        · rcases h2 : check2 modname pk ch run with _ | e2
          · rcases h3 : check3 modname pk ch run with _ | e3
            · simp only [yang_cardinality, hrun, h1, h2, h3] at hok
              simp only [cardinality_calls, hrun, h1, h2, h3, preorder_nodes]
              congr 1
              refine ih.2 ch hch ?_ hok
              intro n hn
              exact hall n (by rw [preorder_nodes]; exact List.mem_cons_of_mem _ hn)
            · simp only [yang_cardinality, hrun, h1, h2, h3] at hok
              exact absurd hok (by simp)
          · simp only [yang_cardinality, hrun, h1, h2] at hok
            exact absurd hok (by simp)
        · simp only [yang_cardinality, hrun, h1] at hok
          exact absurd hok (by simp)
    · intro ls hsz hall hok
      cases ls with
      | nil => rfl
      | cons c cs =>
        have hc : sizeOf c ≤ N := by simp at hsz; omega
        have hcs : sizeOf cs ≤ N := by simp at hsz; omega
        rcases hcres : yang_cardinality modname c with e | u
        · simp only [yang_cardinality_children, hcres] at hok
          exact absurd hok (by simp)
        · simp only [yang_cardinality_children, hcres] at hok
          simp only [cardinality_calls_children, hcres, preorder_forest]
          have hallc : ∀ n ∈ preorder_nodes c,
              (ycard_find n.keyword none yclist false).isSome := by
            intro n hn
            exact hall n (by rw [preorder_forest]; exact List.mem_append_left _ hn)
          have hallcs : ∀ n ∈ preorder_forest cs,
              (ycard_find n.keyword none yclist false).isSome := by
            intro n hn
            exact hall n (by rw [preorder_forest]; exact List.mem_append_right _ hn)
          rw [ih.1 c hc hallc hcres, ih.2 cs hcs hallcs hok]

/-- C4: counterexample.  A `leaf` node with a `description` child but no
`type` child fails its own level checks (missing mandatory `type`), and
`yang_cardinality` then does NOT recurse into the child: the invocation
trace contains only the node itself, contradicting "recurses into every
child regardless of whether the cardinality constraints were satisfied". -/
theorem C4_counterexample :
    (YangStmt.mk Y_DESCRIPTION "d" []) ∈
      (YangStmt.mk Y_LEAF "l" [.mk Y_DESCRIPTION "d" []]).children ∧
    cardinality_calls "m" (.mk Y_LEAF "l" [.mk Y_DESCRIPTION "d" []]) =
      [.mk Y_LEAF "l" [.mk Y_DESCRIPTION "d" []]] ∧
    (YangStmt.mk Y_DESCRIPTION "d" []) ∉
      cardinality_calls "m" (.mk Y_LEAF "l" [.mk Y_DESCRIPTION "d" []]) := by
  refine ⟨by simp [YangStmt.children], rfl, ?_⟩
  have hcalls : cardinality_calls "m" (.mk Y_LEAF "l" [.mk Y_DESCRIPTION "d" []]) =
      [.mk Y_LEAF "l" [.mk Y_DESCRIPTION "d" []]] := rfl
  rw [hcalls]
  simp

/-- C4 (amended): `yang_cardinality` recurses into the children only when
the current level's three checks all pass: a failing level check stops
the traversal at this node, while on a tree whose nodes all have table
runs and which validates successfully the invocation trace is exactly the
pre-order listing (this node first, then each child's subtree in order). -/
theorem C4_traversal :
    (∀ (modname arg : String) (pk : rfc_6020) (ch : List YangStmt)
       (run : List Ycard),
       ycard_find pk none yclist false = some run →
       ¬ (check1 modname pk arg run ch = none ∧ check2 modname pk ch run = none ∧
          check3 modname pk ch run = none) →
       cardinality_calls modname (.mk pk arg ch) = [.mk pk arg ch]) ∧
    (∀ (modname : String) (yt : YangStmt),
       (∀ n ∈ preorder_nodes yt, (ycard_find n.keyword none yclist false).isSome) →
       yang_cardinality modname yt = .ok () →
       cardinality_calls modname yt = preorder_nodes yt) := by
  constructor
  · intro modname arg pk ch run hrun hfail
    rcases h1 : check1 modname pk arg run ch with _ | e1
    · rcases h2 : check2 modname pk ch run with _ | e2
      · rcases h3 : check3 modname pk ch run with _ | e3
        · exact absurd ⟨h1, h2, h3⟩ hfail
        · simp [cardinality_calls, hrun, h1, h2, h3]
      · simp [cardinality_calls, hrun, h1, h2]
    · simp [cardinality_calls, hrun, h1]
  · intro modname yt hall hok
    exact (calls_eq_preorder_aux modname (sizeOf yt)).1 yt le_rfl hall hok

/-- C4: witness.  A failing `leaf` level stops the trace at the node; a
fully valid two-node `container` tree is traversed in pre-order. -/
theorem C4_witness :
    cardinality_calls "m" (.mk Y_LEAF "l" [.mk Y_DESCRIPTION "d" []]) =
      [.mk Y_LEAF "l" [.mk Y_DESCRIPTION "d" []]] ∧
    cardinality_calls "m" (.mk Y_CONTAINER "a" [.mk Y_CONTAINER "b" []]) =
      preorder_nodes (.mk Y_CONTAINER "a" [.mk Y_CONTAINER "b" []]) :=
  ⟨C4_traversal.1 "m" "l" Y_LEAF [.mk Y_DESCRIPTION "d" []] (yclist.drop 159)
      (by decide) (by decide),
   C4_traversal.2 "m" (.mk Y_CONTAINER "a" [.mk Y_CONTAINER "b" []])
      (by decide) (by rfl)⟩

/-- C5: counterexample.  A node whose keyword has no table entry (here a
`namespace` node) is skipped ENTIRELY: `yang_cardinality` reports no
error but also does not recurse — its invocation trace is just the node,
its child is never visited, and the whole tree validates even though the
child's own subtree (a `leaf` without a `type`) is invalid.  This
contradicts "still recurses into the node's children". -/
theorem C5_counterexample :
    ycard_find Y_NAMESPACE none yclist false = none ∧
    yang_cardinality "m" (.mk Y_NAMESPACE "urn:x" [.mk Y_LEAF "l" []]) = .ok () ∧
    yang_cardinality "m" (.mk Y_LEAF "l" []) =
      .error (.missingMandatory "m" Y_TYPE Y_LEAF) ∧
    cardinality_calls "m" (.mk Y_NAMESPACE "urn:x" [.mk Y_LEAF "l" []]) =
      [.mk Y_NAMESPACE "urn:x" [.mk Y_LEAF "l" []]] ∧
    (YangStmt.mk Y_LEAF "l" []) ∉
      cardinality_calls "m" (.mk Y_NAMESPACE "urn:x" [.mk Y_LEAF "l" []]) := by
  refine ⟨by decide, rfl, rfl, rfl, ?_⟩
  have hcalls : cardinality_calls "m" (.mk Y_NAMESPACE "urn:x" [.mk Y_LEAF "l" []]) =
      [.mk Y_NAMESPACE "urn:x" [.mk Y_LEAF "l" []]] := rfl
  rw [hcalls]
  simp

/-- C5 (amended): for every node whose keyword has no entry at all in the
cardinality table, `yang_cardinality` performs none of the three checks
and reports no error, but it also does NOT recurse: it returns success
immediately and its invocation trace is just the node itself. -/
theorem C5_skip :
    ∀ (modname : String) (yt : YangStmt),
      ycard_find yt.keyword none yclist false = none →
      yang_cardinality modname yt = .ok () ∧
      cardinality_calls modname yt = [yt] := by
  intro modname yt h
  cases yt with
  | mk pk arg ch =>
    rw [YangStmt.keyword] at h
    constructor
    · simp [yang_cardinality, h]
    · simp [cardinality_calls, h]

/-- C5: witness at a concrete `namespace` node with a child. -/
theorem C5_witness :
    yang_cardinality "m" (.mk Y_NAMESPACE "urn:y" [.mk Y_CONTAINER "c" []]) = .ok () ∧
    cardinality_calls "m" (.mk Y_NAMESPACE "urn:y" [.mk Y_CONTAINER "c" []]) =
      [.mk Y_NAMESPACE "urn:y" [.mk Y_CONTAINER "c" []]] :=
  C5_skip "m" (.mk Y_NAMESPACE "urn:y" [.mk Y_CONTAINER "c" []]) (by decide)

/-- C6: the static table `yclist` is grouped by parent keyword: for every
keyword with a located run, scanning the run from its first entry and
stopping when the parent keyword changes visits exactly the table's rules
for that parent, and a keyword with no located run has no rules anywhere
in the table. -/
theorem C6_contiguity :
    (∀ (k : rfc_6020) (run : List Ycard),
       ycard_find k none yclist false = some run →
       run.takeWhile (isParent k) = yclist.filter (isParent k)) ∧
    (∀ k : rfc_6020, ycard_find k none yclist false = none →
       yclist.filter (isParent k) = []) :=
  ⟨fun _ _ h => run_rules h, fun _ h => absent_rules h⟩

/-- C6: witness at the `module` run (table index 211) and at the
entry-less `namespace` keyword. -/
theorem C6_witness :
    (yclist.drop 211).takeWhile (isParent Y_MODULE) =
      yclist.filter (isParent Y_MODULE) ∧
    yclist.filter (isParent Y_NAMESPACE) = [] :=
  ⟨C6_contiguity.1 Y_MODULE (yclist.drop 211) (by decide),
   C6_contiguity.2 Y_NAMESPACE (by decide)⟩

/-- Socket address families distinguished by `clicon_sock_family`. -/
inductive AddressFamily where
  | AF_UNIX
  | AF_INET
  | AF_INET6
deriving DecidableEq, Repr

/-- The configuration options consulted by the RPC transport code:
`CLICON_SOCK`, `CLICON_SOCK_FAMILY` and `CLICON_SOCK_PORT` (each a string
option that may be unset).  `clicon_sock` and `clicon_option_str` are
plain accessors of this option store. -/
structure Config where
  sock : Option String
  sock_family : Option String
  sock_port : Option String

/-- Embedding of `clicon_sock_family` (clixon_options.c lines 505-518):
unset or unrecognized means AF_UNIX, "IPv4" means AF_INET, "IPv6" means
AF_INET6. -/
def clicon_sock_family (cfg : Config) : AddressFamily :=
  match cfg.sock_family with
  | none => .AF_UNIX
  | some s =>
    if s = "IPv4" then .AF_INET
    else if s = "IPv6" then .AF_INET6
    else .AF_UNIX

/-- C `atoi` as used on the port option.  (`atoi` parses a leading
integer and yields 0 on no digits; the all-or-nothing `String.toInt?`
differs only on mixed strings, which no claim touches — the result is
only compared against 0.) -/
def atoi (s : String) : Int := (s.toInt?).getD 0

/-- Embedding of `clicon_sock_port` (clixon_options.c lines 523-531):
-1 when the option is unset, else `atoi` of it. -/
def clicon_sock_port (cfg : Config) : Int :=
  match cfg.sock_port with
  | none => -1
  | some s => atoi s

/-- The operation bodies built by the RPC facade (`clicon_msg_encode`
format strings), abstracted to their operation tag and arguments. -/
inductive RpcBody where
  | hello (username : String)
  | lock (username : String) (db : String)
  | getConfig (username : Option String) (db : String) (xpath : String)
deriving DecidableEq, Repr

/-- Embedding of `struct clicon_msg`: the encoded session id and body. -/
structure ClMsg where
  session_id : Nat
  op_body : RpcBody
deriving DecidableEq, Repr

/-- The decoded reply tree, abstracted to the classification the client
code makes of it by xpath: a reply containing an `rpc-error`, a reply
with a `data` element, a bare `ok` reply, or a `hello` reply carrying a
session id. -/
inductive XReply where
  | rpcErrorReply (info : String)
  | dataReply (d : String)
  | okReply
  | helloReply (sid : Nat)
deriving DecidableEq, Repr

/-- `xpath_first(xret, "//rpc-error") != NULL` on an optional reply. -/
def hasRpcError : Option XReply → Bool
  | some (.rpcErrorReply _) => true
  | _ => false

/-- Modelled from the spec: the transport connectors
`clicon_rpc_connect_unix` / `clicon_rpc_connect_inet` (clixon_proto.c is
not part of this source tree; spec sections 4.4 and 6 describe them as a
framed send/receive whose failure is a transport error).  A connector
either fails (transport error) or returns the optional decoded reply
(`retdata` may be NULL, parsing folded in). -/
structure Transport where
  connect_unix : ClMsg → String → Except Unit (Option XReply)
  connect_inet : ClMsg → String → Int → Except Unit (Option XReply)

/-- Embedding of `clicon_rpc_msg` (clixon_proto_client.c lines 92-158):
fail when `CLICON_SOCK` is unset; switch on the socket family with cases
for AF_UNIX and AF_INET only (AF_INET6 falls through the switch, sending
nothing and succeeding with a NULL reply); the AF_INET case first demands
a nonnegative port.  Result: (retval, decoded reply, messages sent). -/
def clicon_rpc_msg (cfg : Config) (tr : Transport) (msg : ClMsg) :
    Int × Option XReply × List ClMsg :=
  match cfg.sock with
  | none => (-1, none, [])
  | some sock =>
    match clicon_sock_family cfg with
    | .AF_UNIX =>
      match tr.connect_unix msg sock with
      | .error _ => (-1, none, [msg])
      | .ok retdata => (0, retdata, [msg])
    | .AF_INET =>
      if clicon_sock_port cfg < 0 then (-1, none, [])
      else
        match tr.connect_inet msg sock (clicon_sock_port cfg) with
        | .error _ => (-1, none, [msg])
        | .ok retdata => (0, retdata, [msg])
    | .AF_INET6 => (0, none, [])

/-- The client handle state read by the facade: the cached session id
(`clicon_session_id_get` / `clicon_session_id_set`, plain accessors of a
cached value per spec section 4.4: "the client caches it for the
remainder of its process lifetime") and the username
(`clicon_username_get`, may be unset). -/
structure Handle where
  sessionId : Option Nat
  username : Option String
deriving DecidableEq, Repr

/-- Embedding of `clicon_hello_req` (lines 1037-1077): encode a hello
with session id 0, send it, fail on an rpc-error or a missing
`hello/session-id`, else return the parsed id.  The id component is
meaningful only when the retval is 0 (the C out-parameter is left unset
on failure). -/
def clicon_hello_req (cfg : Config) (tr : Transport) (h : Handle) :
    Int × Nat × List ClMsg :=
  let msg : ClMsg := ⟨0, .hello (h.username.getD "")⟩
  match clicon_rpc_msg cfg tr msg with
  | (r, xret, t) =>
    if r < 0 then (-1, 0, t)
    else
      match xret with
      | some (.rpcErrorReply _) => (-1, 0, t)
      | some (.helloReply sid) => (0, sid, t)
      | _ => (-1, 0, t)

/-- Embedding of `session_id_check` (lines 170-186): when a session id is
cached, return it without any traffic; otherwise send a hello and cache
the returned id.  Result: (retval, updated handle, session id, messages
sent); the id is meaningful only when the retval is 0. -/
def session_id_check (cfg : Config) (tr : Transport) (h : Handle) :
    Int × Handle × Nat × List ClMsg :=
  match h.sessionId with
  | some id => (0, h, id, [])
  | none =>
    match clicon_hello_req cfg tr h with
    | (r, id, t) =>
      if r < 0 then (-1, h, 0, t)
      else (0, { h with sessionId := some id }, id, t)

/-- Embedding of `clicon_rpc_lock` (lines 572-603): obtain the session
id, send the lock request, and fail (retval -1, via
`clicon_rpc_generate_error`) when the reply contains an rpc-error. -/
def clicon_rpc_lock (cfg : Config) (tr : Transport) (h : Handle) (db : String) :
    Int × Handle × List ClMsg :=
  match session_id_check cfg tr h with
  | (r, h', sid, t1) =>
    if r < 0 then (-1, h', t1)
    else
      let msg : ClMsg := ⟨sid, .lock (h'.username.getD "") db⟩
      match clicon_rpc_msg cfg tr msg with
      | (r2, xret, t2) =>
        if r2 < 0 then (-1, h', t1 ++ t2)
        else if hasRpcError xret then (-1, h', t1 ++ t2)
        else (0, h', t1 ++ t2)

/-- What `clicon_rpc_get_config` stores into `*xt`: the reply element
containing the rpc-error, the data element, or a freshly created empty
`data` node when the reply has neither. -/
inductive GetResult where
  | errorReturn (info : String)
  | dataReturn (d : String)
  | emptyData
deriving DecidableEq, Repr

/-- Embedding of `clicon_rpc_get_config` (lines 346-412): obtain the
session id, send the get-config request, and on transport success always
return 0 with `*xt` holding the rpc-error structure if present, else the
data tree, else a fresh empty data node. -/
def clicon_rpc_get_config (cfg : Config) (tr : Transport) (h : Handle)
    (username : Option String) (db xpath : String) :
    Int × Handle × Option GetResult × List ClMsg :=
  match session_id_check cfg tr h with
  | (r, h', sid, t1) =>
    if r < 0 then (-1, h', none, t1)
    else
      let uname := match username with
        | none => h'.username
        | some u => some u
      let msg : ClMsg := ⟨sid, .getConfig uname db xpath⟩
      match clicon_rpc_msg cfg tr msg with
      | (r2, xret, t2) =>
        if r2 < 0 then (-1, h', none, t1 ++ t2)
        else
          let xd : GetResult :=
            match xret with
            | some (.rpcErrorReply info) => .errorReturn info
            | some (.dataReply d) => .dataReturn d
            | _ => .emptyData
          (0, h', some xd, t1 ++ t2)

/-- Is a message a hello handshake? -/
def isHello (m : ClMsg) : Bool :=
  match m.op_body with
  | .hello _ => true
  | _ => false

/-- Number of hello handshakes in a message trace. -/
def countHellos (t : List ClMsg) : Nat := t.countP isHello

/-- A transport whose connectors always succeed with a fixed reply. -/
def constTr (r : Option XReply) : Transport :=
  ⟨fun _ _ => .ok r, fun _ _ _ => .ok r⟩

/-- A transport whose connectors always fail (transport error). -/
def failTr : Transport :=
  ⟨fun _ _ => .error (), fun _ _ _ => .error ()⟩

/-- `clicon_rpc_msg` sends at most the one encoded message. -/
theorem rpc_msg_trace (cfg : Config) (tr : Transport) (msg : ClMsg) :
    (clicon_rpc_msg cfg tr msg).2.2 = [] ∨ (clicon_rpc_msg cfg tr msg).2.2 = [msg] := by
  unfold clicon_rpc_msg
  rcases cfg.sock with _ | s
  · simp
  · rcases clicon_sock_family cfg with _ | _ | _
    · rcases hu : tr.connect_unix msg s with _ | rd <;> simp [hu]
    · by_cases hp : clicon_sock_port cfg < 0
      · simp [hp]
      · simp only [hp, if_false]
        rcases hi : tr.connect_inet msg s (clicon_sock_port cfg) with _ | rd <;> simp [hi]
    · simp

/-- On a unix-family configuration with the socket option set, the
constant transport delivers its reply: retval 0, one message sent. -/
theorem rpc_msg_constTr {cfg : Config} {s : String}
    (hs : cfg.sock = some s) (hf : clicon_sock_family cfg = .AF_UNIX)
    (r : Option XReply) (msg : ClMsg) :
    clicon_rpc_msg cfg (constTr r) msg = (0, r, [msg]) := by
  simp [clicon_rpc_msg, hs, hf, constTr]

/-- On a unix-family configuration with the socket option set, the
failing transport yields a transport error: retval -1. -/
theorem rpc_msg_failTr {cfg : Config} {s : String}
    (hs : cfg.sock = some s) (hf : clicon_sock_family cfg = .AF_UNIX)
    (msg : ClMsg) :
    clicon_rpc_msg cfg failTr msg = (-1, none, [msg]) := by
  simp [clicon_rpc_msg, hs, hf, failTr]

/-- C7: session acquisition is lazy and happens at most once.  Part one:
with a cached session id, `session_id_check` returns it with no traffic,
and a facade operation (lock) sends no hello and leaves the cache
untouched — for any configuration and transport.  Part two: on a fresh
handle the operation's trace is exactly a hello (encoded with session id
0) followed by the substantive request carrying the id the backend
returned; the id is cached, and a second operation on the resulting
handle sends no further hello. -/
theorem C7_lazy_session :
    (∀ (cfg : Config) (tr : Transport) (h : Handle) (db : String) (i : Nat),
       h.sessionId = some i →
       session_id_check cfg tr h = (0, h, i, []) ∧
       countHellos (clicon_rpc_lock cfg tr h db).2.2 = 0 ∧
       (clicon_rpc_lock cfg tr h db).2.1 = h) ∧
    (∀ (cfg : Config) (s : String) (h : Handle) (db : String) (n : Nat),
       cfg.sock = some s → clicon_sock_family cfg = .AF_UNIX →
       h.sessionId = none →
       clicon_rpc_lock cfg (constTr (some (.helloReply n))) h db =
         (0, { h with sessionId := some n },
          [⟨0, .hello (h.username.getD "")⟩, ⟨n, .lock (h.username.getD "") db⟩]) ∧
       countHellos [ClMsg.mk 0 (.hello (h.username.getD "")),
                    ClMsg.mk n (.lock (h.username.getD "") db)] = 1 ∧
       countHellos (clicon_rpc_lock cfg (constTr (some (.helloReply n)))
         { h with sessionId := some n } db).2.2 = 0) := by
  constructor
  · intro cfg tr h db i hi
    have hs : session_id_check cfg tr h = (0, h, i, []) := by
      simp [session_id_check, hi]
    refine ⟨hs, ?_, ?_⟩
    · rcases hm : clicon_rpc_msg cfg tr ⟨i, .lock (h.username.getD "") db⟩
        with ⟨r2, xret, t2⟩
      have ht := rpc_msg_trace cfg tr ⟨i, .lock (h.username.getD "") db⟩
      rw [hm] at ht
      simp only at ht
      simp only [clicon_rpc_lock, hs, hm]
      split_ifs <;> rcases ht with rfl | rfl <;>
        simp [countHellos, isHello]
    · rcases hm : clicon_rpc_msg cfg tr ⟨i, .lock (h.username.getD "") db⟩
        with ⟨r2, xret, t2⟩
      simp only [clicon_rpc_lock, hs, hm]
      split_ifs <;> rfl
  · intro cfg s h db n hs hf hn
    have hhello : clicon_hello_req cfg (constTr (some (.helloReply n))) h =
        (0, n, [⟨0, .hello (h.username.getD "")⟩]) := by
      simp [clicon_hello_req, rpc_msg_constTr hs hf]
    have hsid : session_id_check cfg (constTr (some (.helloReply n))) h =
        (0, { h with sessionId := some n }, n,
         [⟨0, .hello (h.username.getD "")⟩]) := by
      simp [session_id_check, hn, hhello]
    have hlock : clicon_rpc_lock cfg (constTr (some (.helloReply n))) h db =
        (0, { h with sessionId := some n },
         [⟨0, .hello (h.username.getD "")⟩, ⟨n, .lock (h.username.getD "") db⟩]) := by
      simp only [clicon_rpc_lock, hsid]
      rw [rpc_msg_constTr hs hf]
      simp [hasRpcError]
    refine ⟨hlock, by simp [countHellos, isHello], ?_⟩
    have hsid2 : session_id_check cfg (constTr (some (.helloReply n)))
        { h with sessionId := some n } = (0, { h with sessionId := some n }, n, []) := by
      simp [session_id_check]
    simp only [clicon_rpc_lock, hsid2]
    rw [rpc_msg_constTr hs hf]
    simp [hasRpcError, countHellos, isHello]

/-- C7: witness at a concrete configuration, fresh handle and backend
session id 7. -/
theorem C7_witness :
    clicon_rpc_lock ⟨some "/usr/local/var/example.sock", none, none⟩
      (constTr (some (.helloReply 7))) ⟨none, some "u"⟩ "running" =
      (0, ⟨some 7, some "u"⟩,
       [⟨0, .hello "u"⟩, ⟨7, .lock "u" "running"⟩]) :=
  (C7_lazy_session.2 ⟨some "/usr/local/var/example.sock", none, none⟩
    "/usr/local/var/example.sock" ⟨none, some "u"⟩ "running" 7
    rfl rfl rfl).1

/-- C8: counterexample.  The claim quantifies over every RPC facade
operation, but `clicon_rpc_lock` returns -1 when the backend reports an
rpc-error — the same return value as a transport failure — instead of a
normal (0) return carrying the structured error, so backend-reported
failures are not uniformly surfaced as inspectable results. -/
theorem C8_counterexample :
    (clicon_rpc_lock ⟨some "/s", none, none⟩
       (constTr (some (.rpcErrorReply "lock is already held")))
       ⟨some 42, some "u"⟩ "running").1 = -1 ∧
    (clicon_rpc_lock ⟨some "/s", none, none⟩ failTr
       ⟨some 42, some "u"⟩ "running").1 = -1 :=
  ⟨rfl, rfl⟩

/-- C8 (amended): `clicon_rpc_get_config` does return backend results
uniformly — on transport success it returns 0 with `*xt` holding either
the rpc-error structure, the data tree, or an empty data node — but the
ok-style facade operations such as `clicon_rpc_lock` convert a
backend-reported rpc-error into retval -1, the same value a transport
failure produces. -/
theorem C8_result_shapes :
    (∀ (cfg : Config) (s : String) (r : Option XReply) (h : Handle) (i : Nat)
       (uname : Option String) (db xpath : String),
       cfg.sock = some s → clicon_sock_family cfg = .AF_UNIX →
       h.sessionId = some i →
       (clicon_rpc_get_config cfg (constTr r) h uname db xpath).1 = 0 ∧
       (clicon_rpc_get_config cfg (constTr r) h uname db xpath).2.2.1 =
         some (match r with
               | some (.rpcErrorReply info) => .errorReturn info
               | some (.dataReply d) => .dataReturn d
               | _ => .emptyData)) ∧
    (∀ (cfg : Config) (s : String) (r : Option XReply) (h : Handle) (i : Nat)
       (db : String),
       cfg.sock = some s → clicon_sock_family cfg = .AF_UNIX →
       h.sessionId = some i →
       ((clicon_rpc_lock cfg (constTr r) h db).1 = 0 ↔ hasRpcError r = false)) ∧
    (∀ (cfg : Config) (s : String) (h : Handle) (i : Nat) (db : String),
       cfg.sock = some s → clicon_sock_family cfg = .AF_UNIX →
       h.sessionId = some i →
       (clicon_rpc_lock cfg failTr h db).1 = -1) := by
  refine ⟨?_, ?_, ?_⟩
  · intro cfg s r h i uname db xpath hs hf hi
    have hsid : session_id_check cfg (constTr r) h = (0, h, i, []) := by
      simp [session_id_check, hi]
    simp only [clicon_rpc_get_config, hsid]
    rw [rpc_msg_constTr hs hf]
    simp
  · intro cfg s r h i db hs hf hi
    have hsid : session_id_check cfg (constTr r) h = (0, h, i, []) := by
      simp [session_id_check, hi]
    simp only [clicon_rpc_lock, hsid]
    rw [rpc_msg_constTr hs hf]
    rcases he : hasRpcError r with _ | _ <;> simp [he]
  · intro cfg s h i db hs hf hi
    have hsid : session_id_check cfg failTr h = (0, h, i, []) := by
      simp [session_id_check, hi]
    simp only [clicon_rpc_lock, hsid]
    rw [rpc_msg_failTr hs hf]
    simp

/-- C8: witness.  get-config with a backend rpc-error reply returns 0
with the error structure in `*xt`; lock with the same reply returns -1. -/
theorem C8_witness :
    ((clicon_rpc_get_config ⟨some "/s", none, none⟩
        (constTr (some (.rpcErrorReply "validation failed")))
        ⟨some 3, none⟩ none "candidate" "/").1 = 0 ∧
     (clicon_rpc_get_config ⟨some "/s", none, none⟩
        (constTr (some (.rpcErrorReply "validation failed")))
        ⟨some 3, none⟩ none "candidate" "/").2.2.1 =
       some (.errorReturn "validation failed")) ∧
    ¬ ((clicon_rpc_lock ⟨some "/s", none, none⟩
         (constTr (some (.rpcErrorReply "validation failed")))
         ⟨some 3, none⟩ "running").1 = 0) :=
  ⟨C8_result_shapes.1 ⟨some "/s", none, none⟩ "/s"
      (some (.rpcErrorReply "validation failed")) ⟨some 3, none⟩ 3
      none "candidate" "/" rfl rfl rfl,
   fun hcontra =>
     by
      have := (C8_result_shapes.2.1 ⟨some "/s", none, none⟩ "/s"
        (some (.rpcErrorReply "validation failed")) ⟨some 3, none⟩ 3
        "running" rfl rfl rfl).1 hcontra
      simp [hasRpcError] at this⟩

/-- Outcome of a backend lock request. -/
inductive LockResult where
  | success
  | alreadyLocked
deriving DecidableEq, Repr

/-- Modelled from the spec: the backend's per-datastore lock table (the
backend lock coordinator is not part of this source tree; spec sections 3
"Lock", 4.5 and 5 describe it).  Each entry binds a datastore name to its
holding session id. -/
def LockState := List (String × Nat)

/-- Modelled from the spec: the current holder of a datastore's lock. -/
def lock_holder (st : LockState) (db : String) : Option Nat :=
  (st.find? (fun p => p.1 = db)).map (fun p => p.2)

/-- Modelled from the spec: the backend's atomic `lock(session, datastore)`
operation — "lock fails with already-locked if the named datastore
currently has a different holder" (spec section 4.5), executed under the
mutual-exclusion discipline of spec section 5 (each lock request is a
single atomic step, so concurrent requests interleave as a sequence). -/
def lock_ds (st : LockState) (sess : Nat) (db : String) : LockState × LockResult :=
  match lock_holder st db with
  | none => ((db, sess) :: st, .success)
  | some holder => (st, if holder = sess then .success else .alreadyLocked)

/-- C9: for every datastore, two lock requests from two different
sessions against an unlocked datastore yield exactly one success and one
already-locked error regardless of interleaving (each request is atomic,
so the two interleavings are the two orders), and afterwards the lock's
holder is exactly the session that succeeded. -/
theorem C9_lock_exclusion :
    ∀ (st : LockState) (a b : Nat) (db : String),
      a ≠ b → lock_holder st db = none →
      ((lock_ds st a db).2 = .success ∧
       (lock_ds (lock_ds st a db).1 b db).2 = .alreadyLocked ∧
       lock_holder (lock_ds (lock_ds st a db).1 b db).1 db = some a) ∧
      ((lock_ds st b db).2 = .success ∧
       (lock_ds (lock_ds st b db).1 a db).2 = .alreadyLocked ∧
       lock_holder (lock_ds (lock_ds st b db).1 a db).1 db = some b) := by
  intro st a b db hne hnone
  have hone : ∀ x y : Nat, x ≠ y →
      (lock_ds st x db).2 = .success ∧
      (lock_ds (lock_ds st x db).1 y db).2 = .alreadyLocked ∧
      lock_holder (lock_ds (lock_ds st x db).1 y db).1 db = some x := by
    intro x y hxy
    have h1 : lock_ds st x db = ((db, x) :: st, .success) := by
      simp [lock_ds, hnone]
    have h2 : lock_holder ((db, x) :: st) db = some x := by
      simp [lock_holder, List.find?]
    refine ⟨by rw [h1], ?_, ?_⟩
    · rw [h1]
      simp only [lock_ds, h2]
      simp [hxy]
    · rw [h1]
      simp only [lock_ds, h2]
  exact ⟨hone a b hne, hone b a (fun h => hne h.symm)⟩

/-- C9: witness with sessions 1 and 2 on the `running` datastore from an
empty lock table. -/
theorem C9_witness :
    (lock_ds [] 1 "running").2 = .success ∧
    (lock_ds (lock_ds [] 1 "running").1 2 "running").2 = .alreadyLocked ∧
    lock_holder (lock_ds (lock_ds [] 1 "running").1 2 "running").1 "running" = some 1 :=
  (C9_lock_exclusion [] 1 2 "running" (by decide) rfl).1

/-- C10: with `CLICON_SOCK` set and `CLICON_SOCK_FAMILY` configured as
"IPv6", `clicon_sock_family` returns AF_INET6, for which the transport
switch of `clicon_rpc_msg` has no case: the function sends nothing to any
backend yet returns 0 (success) with a NULL reply tree. -/
theorem C10_inet6_silent_success :
    ∀ (cfg : Config) (tr : Transport) (msg : ClMsg) (s : String),
      cfg.sock = some s →
      cfg.sock_family = some "IPv6" →
      clicon_sock_family cfg = .AF_INET6 ∧
      clicon_rpc_msg cfg tr msg = (0, none, []) := by
  intro cfg tr msg s hs hf
  have hfam : clicon_sock_family cfg = .AF_INET6 := by
    simp [clicon_sock_family, hf]
  exact ⟨hfam, by simp [clicon_rpc_msg, hs, hfam]⟩

/-- C10: witness at a concrete IPv6 configuration and failing transport:
even a transport that would fail every connection is never contacted. -/
theorem C10_witness :
    clicon_rpc_msg ⟨some "/s", some "IPv6", some "4535"⟩ failTr
      ⟨9, .lock "u" "running"⟩ = (0, none, []) :=
  (C10_inet6_silent_success ⟨some "/s", some "IPv6", some "4535"⟩ failTr
    ⟨9, .lock "u" "running"⟩ "/s" rfl rfl).2
